import Mathlib

/-!
Shallow embedding of the ltchiptool GUI shell, from:
  src/ltchiptool/gui/main.py        (class MainFrame)
  src/ltchiptool/gui/panels/base.py (class BasePanel)
Stateful Python methods become pure functions with explicit state passing;
code that may raise is modelled with an explicit failure outcome.
-/

namespace BasePanel

/-- State of the update re-entrancy guard of a panel (field `_in_update` of
`BasePanel`, base.py line 18). -/
structure UpdState where
  in_update : Bool
deriving DecidableEq, Repr

/-- Outcome of one call into an update entry point: the guard state when the
call returns (or when the exception escapes), whether the `OnUpdate` body was
invoked, whether an exception escaped the call, and whether the native event
was allowed to propagate (`event.Skip()` was called). -/
structure UpdResult where
  st : UpdState
  invoked : Bool
  raised : Bool
  skipped : Bool
deriving DecidableEq, Repr

/-- Embedding of `BasePanel._OnUpdate` (base.py lines 73-80), the native event
entry point, called with an actual event object. The overridable `OnUpdate`
body is abstracted by whether it raises (`raises`). If the guard is set the
event is skipped (propagates natively) and the method returns. Otherwise the
guard is set, `event.Skip()` runs, `OnUpdate` runs, and the guard is cleared —
but when `OnUpdate` raises, the clearing assignment is never reached. -/
def eventOnUpdate (raises : Bool) (p : UpdState) : UpdResult :=
  if p.in_update then ⟨p, false, false, true⟩
  else if raises then ⟨⟨true⟩, true, true, true⟩
  else ⟨⟨false⟩, true, false, true⟩

/-- Embedding of `BasePanel.DoUpdate` (base.py lines 82-87), the programmatic
entry point: same guard, no event to skip; the guard-clearing assignment is
skipped when `OnUpdate` raises. -/
def DoUpdate (raises : Bool) (p : UpdState) : UpdResult :=
  if p.in_update then ⟨p, false, false, false⟩
  else if raises then ⟨⟨true⟩, true, true, false⟩
  else ⟨⟨false⟩, true, false, false⟩

/-- Worker bookkeeping state of a panel: the identifiers of the active workers
(field `_threads`) and the `is_closing` flag (base.py lines 17-19). -/
structure WorkState where
  threads : List Nat
  is_closing : Bool
deriving DecidableEq, Repr

/-- Result of `BasePanel.OnClose`: the panel state at return, plus the list of
workers whose threads had fully terminated (were joined) before the call
returned, in join order. -/
structure CloseOutcome where
  panel : WorkState
  joined : List Nat
deriving DecidableEq, Repr

/-- Modelled from the spec: `BaseThread` (ltchiptool/gui/work/base.py) is not
under src/. Per the spec, `t.stop()` requests cancellation, `t.join()` blocks
until the thread has fully exited, and a worker that completes reports it via
its stop callback, which calls `OnWorkStopped` (base.py lines 46-47), removing
the worker from the panel list (`self._threads.remove(t)`). This loop embeds
`for t in list(self._threads): t.stop(); t.join()` (base.py lines 63-65): the
first argument is the snapshot being iterated, the second the live list; each
joined worker has, by return of its join, been removed from the live list. -/
def closeLoop : List Nat → List Nat → List Nat × List Nat
  | [], live => (live, [])
  | t :: rest, live =>
    let res := closeLoop rest (live.erase t)
    (res.1, t :: res.2)

/-- Embedding of `BasePanel.OnClose` (base.py lines 61-65): set `is_closing`,
then stop and join every worker in a snapshot of the active list. -/
def OnClose (p : WorkState) : CloseOutcome :=
  let p1 : WorkState := { p with is_closing := true }
  let res := closeLoop p1.threads p1.threads
  ⟨{ p1 with threads := res.1 }, res.2⟩

end BasePanel

namespace MainFrame

/-- The settings slice returned by `MainFrame.GetSettings` and accepted by
`MainFrame.SetSettings` (main.py lines 129-151): window position, window size
and the identifier of the active notebook page. In `GetSettings` the `page`
value may be Python `None` (modelled as `none`) when the current notebook page
matches no registered panel; in `SetSettings` all three are optional. -/
structure MainSettings where
  pos : Option (Int × Int)
  size : Option (Int × Int)
  page : Option String
deriving DecidableEq, Repr

/-- Window state of `MainFrame` relevant to settings handling: the `loaded`
flag, the keys of the `Panels` dict in insertion order, the notebook pages (as
the names of the panels they hold, in page order), the notebook selection
index, and the window position and size. Panel objects are identified by their
registry name (dict keys are unique). -/
structure Frame where
  loaded : Bool
  panels : List String
  pages : List String
  sel : Nat
  pos : Int × Int
  size : Int × Int
deriving DecidableEq, Repr

/-- Embedding of the `NotebookPageName` getter (main.py lines 164-168): walk
the `Panels` dict and return the name whose panel is the notebook current
page; falling off the loop returns Python `None`. With unique names this is
the current page name when it belongs to a registered panel, else `none`. -/
def NotebookPageName (f : Frame) : Option String :=
  match f.pages[f.sel]? with
  | some n => if f.panels.contains n then some n else none
  | none => none

/-- Embedding of `MainFrame.GetSettings` (main.py lines 129-137). -/
def GetSettings (f : Frame) : MainSettings :=
  ⟨some f.pos, some f.size, NotebookPageName f⟩

/-- Embedding of the `NotebookPagePanel` setter (main.py lines 157-162): find
the notebook page equal to the given panel and select it; no match leaves the
selection unchanged. -/
def setNotebookPagePanel (f : Frame) (n : String) : Frame :=
  match f.pages.findIdx? (· == n) with
  | some i => { f with sel := i }
  | none => f

/-- Embedding of the `NotebookPageName` setter (main.py lines 170-174):
`Panels.get(name)`; when it yields a (truthy) panel, delegate to the
`NotebookPagePanel` setter, else do nothing. -/
def setNotebookPageName (f : Frame) (n : String) : Frame :=
  if f.panels.contains n then setNotebookPagePanel f n else f

/-- Embedding of `MainFrame.SetSettings` (main.py lines 139-151): apply `pos`
and `size` when truthy (a present two-element sequence is always truthy), and
`page` when it is not `None`. -/
def SetSettings (f : Frame) (m : MainSettings) : Frame :=
  let f1 := match m.pos with | some p => { f with pos := p } | none => f
  let f2 := match m.size with | some s => { f1 with size := s } | none => f1
  match m.page with
  | some n => setNotebookPageName f2 n
  | none => f2

/-- A value of the persisted settings document. Per-panel slices are flat
string dictionaries here (their internal shape is irrelevant to the claims);
the reserved `main` slice carries the window settings; `jother` stands for any
non-dict JSON value a prior file may hold. -/
inductive JVal where
  | jdict : List (String × String) → JVal
  | jmain : MainSettings → JVal
  | jother : JVal
deriving DecidableEq, Repr

/-- The persisted settings document: a JSON object, keys in insertion order. -/
abbrev JDoc := List (String × JVal)

/-- Python dict lookup `doc.get(k)` on the document. -/
def lookupKey (k : String) : JDoc → Option JVal
  | [] => none
  | (k2, v) :: rest => if k2 = k then some v else lookupKey k rest

/-- Python dict assignment `doc[k] = v`: overwrite in place, or append. -/
def setKey (k : String) (v : JVal) : JDoc → JDoc
  | [] => [(k, v)]
  | (k2, v2) :: rest =>
    if k2 = k then (k2, v) :: rest else (k2, v2) :: setKey k v rest

/-- Python `panel.GetSettings() or {}` (main.py line 212): a panel returns a
dict or `None`; `None` and the empty (falsy) dict both yield `{}`. -/
def orEmptyDict (g : Option (List (String × String))) : List (String × String) :=
  match g with
  | some d => if d.isEmpty then [] else d
  | none => []

/-- Result of `MainFrame.OnClose`: the settings file afterwards (`none` when
no file exists), whether the window was destroyed, and whether the settings
file was written. -/
structure CloseResult where
  file : Option JDoc
  destroyed : Bool
  wrote : Bool
deriving DecidableEq, Repr

/-- Embedding of `MainFrame.OnClose` (main.py lines 203-215). `file` is the
settings file content (`none` for a missing or unreadable file, for which
`readjson` yields `None` and the `_settings` getter substitutes `{}`);
`panelSettings` gives the `GetSettings()` result of each panel. When the `loaded`
flag is unset the window is destroyed at once and the file is untouched.
Otherwise the document is read, its `main` slice and the slice of every mounted
panel are overwritten (a panel returning `None` stores `{}`), and the whole
document is written back before the window is destroyed. -/
def OnClose (f : Frame) (file : Option JDoc)
    (panelSettings : String → Option (List (String × String))) : CloseResult :=
  if f.loaded = false then ⟨file, true, false⟩
  else
    let doc0 := file.getD []
    let doc1 := setKey "main" (JVal.jmain (GetSettings f)) doc0
    let doc2 := f.panels.foldl
      (fun d n => setKey n (JVal.jdict (orEmptyDict (panelSettings n))) d) doc1
    ⟨some doc2, true, true⟩

/-- Observable events of `MainFrame.OnShow` (main.py lines 192-201), in the
order the method performs them. -/
inductive ShowEv where
  | setMainSettings
  | setSettings (n : String)
  | setInitParams (n : String)
  | loadedInfo
  | onShow (n : String)
deriving DecidableEq, Repr

/-- Embedding of `MainFrame.OnShow` as its event trace: apply the main slice,
then one loop giving every panel its settings slice and the init params, the
info log when the document is non-empty, then a second loop calling `OnShow`
on every panel. -/
def OnShow (panels : List String) (hasSettings : Bool) : List ShowEv :=
  (ShowEv.setMainSettings ::
      panels.flatMap fun n => [ShowEv.setSettings n, ShowEv.setInitParams n]) ++
    ((if hasSettings then [ShowEv.loadedInfo] else []) ++ panels.map ShowEv.onShow)

/-- The two config files in the application-data directory, by content:
`old_config` is `config.json`, `config_file` is `gui.json` (main.py lines
52-53); `none` means the file does not exist. -/
structure ConfigFS where
  old_config : Option String
  config_file : Option String
deriving DecidableEq, Repr

/-- Embedding of the legacy-config migration (main.py lines 54-58): when
`config.json` exists, delete any existing `gui.json`, then rename
`config.json` to `gui.json`. -/
def migrateConfig (fs : ConfigFS) : ConfigFS :=
  if fs.old_config.isSome then
    let fs1 := if fs.config_file.isSome then { fs with config_file := none } else fs
    { old_config := none, config_file := fs1.old_config }
  else fs

/-- One entry of the `windows` list built in `MainFrame.__init__` (main.py
lines 77-88): the panel name, whether the class subclasses `BasePanel`
(`issubclass(cls, BasePanel)`), and whether its constructor raises. -/
structure BuildEntry where
  name : String
  isPanel : Bool
  fails : Bool
deriving DecidableEq, Repr

/-- State threaded through the panel-construction part of
`MainFrame.__init__`: the `loaded` flag, the `Panels` dict keys, the names
logged via `emit_exception` (the message names the panel being built), the
names warned about as unknown GUI elements, and whether `OnClose` ran (which,
with `loaded` unset, destroys the window). -/
structure BuildState where
  loaded : Bool
  panels : List String
  logs : List String
  warnings : List String
  closed : Bool
deriving DecidableEq, Repr

/-- Embedding of the `for name, cls in windows` loop under `try` (main.py
lines 95-105): reaching an entry whose name starts with `plugin.` sets the
`loaded` flag before that entry is built; a `BasePanel` subclass is
constructed (possibly raising, which aborts the loop yielding the failing
name) and mounted; any other class logs a warning and is skipped; falling off
the loop sets `loaded`. -/
def buildLoop : List BuildEntry → BuildState → BuildState × Option String
  | [], st => ({ st with loaded := true }, none)
  | e :: rest, st =>
    let st1 := if e.name.startsWith "plugin." then { st with loaded := true } else st
    if e.isPanel then
      if e.fails then (st1, some e.name)
      else buildLoop rest { st1 with panels := st1.panels ++ [e.name] }
    else buildLoop rest { st1 with warnings := st1.warnings ++ [e.name] }

/-- Embedding of the `except` clause (main.py lines 106-109): the exception is
logged with the name of the panel being built, and when the `loaded` flag is
still unset, `OnClose` runs (destroying the never-loaded window). -/
def handleBuildExc (st : BuildState) (n : String) : BuildState :=
  let st1 := { st with logs := st.logs ++ [n] }
  if st1.loaded = false then { st1 with closed := true } else st1

/-- The build state right before the `try` block: the log panel is already in
`Panels` (main.py lines 59-65) and the `loaded` flag is unset. -/
def initState : BuildState := ⟨false, ["log"], [], [], false⟩

/-- Embedding of the guarded construction section of `MainFrame.__init__`
(main.py lines 90-109): the menu bar is loaded first under the dummy name
`UI` (`menubarFails` says whether `LoadMenuBar` raises), then the panel loop
runs; an escaping exception is handled by the `except` clause. -/
def buildPanels (menubarFails : Bool) (ws : List BuildEntry) : BuildState :=
  if menubarFails then handleBuildExc initState "UI"
  else
    match buildLoop ws initState with
    | (st, none) => st
    | (st, some n) => handleBuildExc st n

/-- Name of the first entry whose construction raises, if any: the exception
produced by the `for` loop. -/
def failName : List BuildEntry → Option String
  | [] => none
  | e :: rest => if e.isPanel && e.fails then some e.name else failName rest

/-- Whether a `plugin.`-prefixed entry is reached at or before the first
failing entry, i.e. whether the `loaded` flag is set when the loop raises. -/
def pluginBeforeFail : List BuildEntry → Bool
  | [] => false
  | e :: rest =>
    e.name.startsWith "plugin." ||
      (if e.isPanel && e.fails then false else pluginBeforeFail rest)

/-- Whether some entry fails before any `plugin.`-prefixed entry is reached:
exactly the condition under which the window is closed (menu bar aside). -/
def failsBeforePlugin : List BuildEntry → Bool
  | [] => false
  | e :: rest =>
    if e.name.startsWith "plugin." then false
    else if e.isPanel && e.fails then true
    else failsBeforePlugin rest

end MainFrame

/-! Theorems. -/

/-- C4: a widget-change event delivered while an `OnUpdate` invocation is in
progress (`_in_update` set) triggers no second nested `OnUpdate`, through both
the native event entry point (`_OnUpdate`) and the programmatic one
(`DoUpdate`); the event still propagates natively (`event.Skip()` runs), and
the guard state is left unchanged. -/
theorem c4_update_guard_no_reentry (p : BasePanel.UpdState) (raises : Bool)
    (h : p.in_update = true) :
    (BasePanel.eventOnUpdate raises p).invoked = false ∧
    (BasePanel.eventOnUpdate raises p).skipped = true ∧
    (BasePanel.eventOnUpdate raises p).st = p ∧
    (BasePanel.DoUpdate raises p).invoked = false ∧
    (BasePanel.DoUpdate raises p).st = p := by
  simp [BasePanel.eventOnUpdate, BasePanel.DoUpdate, h]

/-- Witness for C4 at the concrete guard state `⟨true⟩`. -/
theorem c4_update_guard_no_reentry_witness :
    (BasePanel.eventOnUpdate false ⟨true⟩).invoked = false ∧
    (BasePanel.eventOnUpdate false ⟨true⟩).skipped = true ∧
    (BasePanel.eventOnUpdate false ⟨true⟩).st = ⟨true⟩ ∧
    (BasePanel.DoUpdate false ⟨true⟩).invoked = false ∧
    (BasePanel.DoUpdate false ⟨true⟩).st = ⟨true⟩ :=
  c4_update_guard_no_reentry ⟨true⟩ false rfl

/-- C9: when the `OnUpdate` handler raises, the exception escapes with the
`_in_update` guard still set (no exception-safe reset), through either entry
point; from that state every subsequent `DoUpdate` call and every subsequent
widget-change event skips the `OnUpdate` recomputation. -/
theorem c9_raise_leaves_guard_set (p : BasePanel.UpdState)
    (h : p.in_update = false) :
    (BasePanel.DoUpdate true p).raised = true ∧
    (BasePanel.DoUpdate true p).st.in_update = true ∧
    (BasePanel.eventOnUpdate true p).raised = true ∧
    (BasePanel.eventOnUpdate true p).st.in_update = true ∧
    (∀ b, (BasePanel.DoUpdate b (BasePanel.DoUpdate true p).st).invoked = false) ∧
    (∀ b, (BasePanel.eventOnUpdate b (BasePanel.DoUpdate true p).st).invoked = false) := by
  simp [BasePanel.DoUpdate, BasePanel.eventOnUpdate, h]

/-- Witness for C9 at the concrete guard state `⟨false⟩`. -/
theorem c9_raise_leaves_guard_set_witness :
    (BasePanel.DoUpdate true ⟨false⟩).raised = true ∧
    (BasePanel.DoUpdate true ⟨false⟩).st.in_update = true ∧
    (BasePanel.eventOnUpdate true ⟨false⟩).raised = true ∧
    (BasePanel.eventOnUpdate true ⟨false⟩).st.in_update = true ∧
    (∀ b, (BasePanel.DoUpdate b (BasePanel.DoUpdate true ⟨false⟩).st).invoked = false) ∧
    (∀ b, (BasePanel.eventOnUpdate b (BasePanel.DoUpdate true ⟨false⟩).st).invoked = false) :=
  c9_raise_leaves_guard_set ⟨false⟩ rfl

/-- C5: when the legacy `config.json` exists, after migration `gui.json` holds
the legacy content (any prior `gui.json` was first deleted and the legacy file
renamed over it) and `config.json` no longer exists; when no legacy file
exists, nothing changes. -/
theorem c5_config_migration (fs : MainFrame.ConfigFS) :
    (∀ c, fs.old_config = some c →
      MainFrame.migrateConfig fs = ⟨none, some c⟩) ∧
    (fs.old_config = none → MainFrame.migrateConfig fs = fs) := by
  constructor
  · intro c h
    cases hn : fs.config_file <;>
      simp [MainFrame.migrateConfig, h, hn]
  · intro h
    simp [MainFrame.migrateConfig, h]

/-- Witness for C5 at a filesystem holding both files. -/
theorem c5_config_migration_witness :
    MainFrame.migrateConfig ⟨some "legacy", some "stale"⟩ =
      (⟨none, some "legacy"⟩ : MainFrame.ConfigFS) :=
  (c5_config_migration ⟨some "legacy", some "stale"⟩).1 "legacy" rfl

/-- C2: for every prior settings-file state, when the window never reached the
loaded state (`loaded` unset), `OnClose` destroys the window immediately, the
file is left exactly as it was, and nothing is written. -/
theorem c2_close_unloaded_never_writes (f : MainFrame.Frame)
    (file : Option MainFrame.JDoc)
    (g : String → Option (List (String × String)))
    (h : f.loaded = false) :
    MainFrame.OnClose f file g = ⟨file, true, false⟩ := by
  simp [MainFrame.OnClose, h]

/-- Witness for C2 on a failed-startup frame over a pre-existing file. -/
theorem c2_close_unloaded_never_writes_witness :
    MainFrame.OnClose ⟨false, ["log"], [], 0, (0, 0), (700, 800)⟩
        (some [("main", MainFrame.JVal.jother)]) (fun _ => none) =
      ⟨some [("main", MainFrame.JVal.jother)], true, false⟩ :=
  c2_close_unloaded_never_writes ⟨false, ["log"], [], 0, (0, 0), (700, 800)⟩
    (some [("main", MainFrame.JVal.jother)]) (fun _ => none) rfl

/-- The close loop over a snapshot of the live list empties the live list and
joins the snapshot in order. -/
lemma closeLoop_self_eq (l : List Nat) : BasePanel.closeLoop l l = ([], l) := by
  induction l with
  | nil => rfl
  | cons t rest ih =>
    simp [BasePanel.closeLoop, List.erase_cons_head, ih]

/-- C6: after `BasePanel.OnClose` returns, the active-worker list is empty,
whatever workers were active before; every previously active worker was
stopped and its thread joined (fully terminated) before the call returned, and
the panel is marked closing. -/
theorem c6_onclose_stops_all_workers (p : BasePanel.WorkState) :
    (BasePanel.OnClose p).panel.threads = [] ∧
    (BasePanel.OnClose p).joined = p.threads ∧
    (BasePanel.OnClose p).panel.is_closing = true := by
  simp [BasePanel.OnClose, closeLoop_self_eq]



/-- Selecting a notebook page changes only the selection index. -/
lemma setNotebookPagePanel_fields (f : MainFrame.Frame) (n : String) :
    (MainFrame.setNotebookPagePanel f n).pos = f.pos ∧
    (MainFrame.setNotebookPagePanel f n).size = f.size ∧
    (MainFrame.setNotebookPagePanel f n).panels = f.panels ∧
    (MainFrame.setNotebookPagePanel f n).pages = f.pages := by
  unfold MainFrame.setNotebookPagePanel
  split <;> exact ⟨rfl, rfl, rfl, rfl⟩

/-- Setting the page by name changes only the selection index. -/
lemma setNotebookPageName_fields (f : MainFrame.Frame) (n : String) :
    (MainFrame.setNotebookPageName f n).pos = f.pos ∧
    (MainFrame.setNotebookPageName f n).size = f.size ∧
    (MainFrame.setNotebookPageName f n).panels = f.panels ∧
    (MainFrame.setNotebookPageName f n).pages = f.pages := by
  unfold MainFrame.setNotebookPageName
  split
  · exact setNotebookPagePanel_fields f n
  · exact ⟨rfl, rfl, rfl, rfl⟩

/-- Setting the page by a name that is in no registered panel is a no-op. -/
lemma setNotebookPageName_unknown (f : MainFrame.Frame) (n : String)
    (h : f.panels.contains n = false) :
    MainFrame.setNotebookPageName f n = f := by
  unfold MainFrame.setNotebookPageName
  simp_all

/-- Selection is untouched when the page name is in no registered panel. -/
lemma setNotebookPageName_unknown_sel (f : MainFrame.Frame) (n : String)
    (h : f.panels.contains n = false) :
    (MainFrame.setNotebookPageName f n).sel = f.sel := by
  rw [setNotebookPageName_unknown f n h]

/-- C8: `SetSettings` applies exactly the present optional arguments: the
resulting position and size are the given ones when present and the old ones
otherwise, the registry is untouched, an absent `page` leaves the selection
unchanged, and a `page` naming no mounted panel is a no-op on the active
tab. -/
theorem c8_setsettings_applies_present (f : MainFrame.Frame)
    (m : MainFrame.MainSettings) :
    (MainFrame.SetSettings f m).pos = m.pos.getD f.pos ∧
    (MainFrame.SetSettings f m).size = m.size.getD f.size ∧
    (MainFrame.SetSettings f m).panels = f.panels ∧
    (MainFrame.SetSettings f m).pages = f.pages ∧
    (m.page = none → (MainFrame.SetSettings f m).sel = f.sel) ∧
    (∀ n, m.page = some n → f.panels.contains n = false →
      (MainFrame.SetSettings f m).sel = f.sel) := by
  obtain ⟨po, si, pa⟩ := m
  refine ⟨?_, ?_, ?_, ?_, ?_, ?_⟩
  · cases pa with
    | none => cases po <;> cases si <;> rfl
    | some n => cases po <;> cases si <;> exact (setNotebookPageName_fields _ n).1
  · cases pa with
    | none => cases po <;> cases si <;> rfl
    | some n => cases po <;> cases si <;> exact (setNotebookPageName_fields _ n).2.1
  · cases pa with
    | none => cases po <;> cases si <;> rfl
    | some n => cases po <;> cases si <;> exact (setNotebookPageName_fields _ n).2.2.1
  · cases pa with
    | none => cases po <;> cases si <;> rfl
    | some n => cases po <;> cases si <;> exact (setNotebookPageName_fields _ n).2.2.2
  · cases pa with
    | none => cases po <;> cases si <;> exact fun _ => rfl
    | some n => intro h; exact absurd h (by simp)
  · cases pa with
    | none => intro n2 h; exact absurd h (by simp)
    | some n =>
      intro n2 h hc
      have hn : n = n2 := by simpa using h
      subst hn
      cases po <;> cases si <;> exact setNotebookPageName_unknown_sel _ n hc

/-- Witness for C8: a present size together with an absent position and a page
naming no mounted panel changes the size and nothing else. -/
theorem c8_setsettings_applies_present_witness :
    (MainFrame.SetSettings ⟨true, ["log", "flash"], ["flash"], 0, (1, 2), (700, 800)⟩
        ⟨none, some (600, 700), some "ghost"⟩).pos = (1, 2) ∧
    (MainFrame.SetSettings ⟨true, ["log", "flash"], ["flash"], 0, (1, 2), (700, 800)⟩
        ⟨none, some (600, 700), some "ghost"⟩).size = (600, 700) ∧
    (MainFrame.SetSettings ⟨true, ["log", "flash"], ["flash"], 0, (1, 2), (700, 800)⟩
        ⟨none, some (600, 700), some "ghost"⟩).sel = 0 := by
  have h := c8_setsettings_applies_present
    ⟨true, ["log", "flash"], ["flash"], 0, (1, 2), (700, 800)⟩
    ⟨none, some (600, 700), some "ghost"⟩
  exact ⟨h.1, h.2.1, h.2.2.2.2.2 "ghost" rfl (by decide)⟩

/-- C7: on a fresh window with the same panel registry and notebook pages,
applying the output of `GetSettings` (any valid window state: the current
notebook page exists and belongs to a registered panel) reproduces the window
position, the window size, and the active-page identifier. -/
theorem c7_settings_roundtrip (s f : MainFrame.Frame)
    (hpanels : f.panels = s.panels) (hpages : f.pages = s.pages)
    (n : String) (hsel : s.pages[s.sel]? = some n)
    (hmem : s.panels.contains n = true) :
    (MainFrame.SetSettings f (MainFrame.GetSettings s)).pos = s.pos ∧
    (MainFrame.SetSettings f (MainFrame.GetSettings s)).size = s.size ∧
    MainFrame.NotebookPageName (MainFrame.SetSettings f (MainFrame.GetSettings s)) =
      MainFrame.NotebookPageName s := by
  have hmem' : n ∈ s.panels := by simpa using hmem
  have hpn : MainFrame.NotebookPageName s = some n := by
    simp [MainFrame.NotebookPageName, hsel, hmem']
  have hget : MainFrame.GetSettings s = ⟨some s.pos, some s.size, some n⟩ := by
    simp [MainFrame.GetSettings, hpn]
  rw [hget]
  have hnp : n ∈ s.pages := List.getElem?_mem hsel
  have hex : ∃ x, x ∈ s.pages ∧ (x == n) = true := ⟨n, hnp, by simp⟩
  have hfi : s.pages.findIdx? (· == n) = some (s.pages.findIdx (· == n)) :=
    List.findIdx?_eq_some_of_exists hex
  obtain ⟨hlt, hbeq, -⟩ := List.findIdx?_eq_some_iff_getElem.mp hfi
  have hin : s.pages[s.pages.findIdx (· == n)] = n := by simpa using hbeq
  have hres : MainFrame.SetSettings f ⟨some s.pos, some s.size, some n⟩ =
      { f with pos := s.pos, size := s.size, sel := s.pages.findIdx (· == n) } := by
    simp [MainFrame.SetSettings, MainFrame.setNotebookPageName, hpanels, hmem',
      MainFrame.setNotebookPagePanel, hpages, hfi]
  rw [hres]
  refine ⟨rfl, rfl, ?_⟩
  simp [MainFrame.NotebookPageName, hpages, hpanels, hsel,
    List.getElem?_eq_getElem hlt, hin, hmem']

/-- Witness for C7 on a window showing the `about` page at position (10, 20),
restored onto a fresh window with the default geometry. -/
theorem c7_settings_roundtrip_witness :
    (MainFrame.SetSettings ⟨true, ["log", "flash", "about"], ["flash", "about"], 0, (0, 0), (700, 800)⟩
        (MainFrame.GetSettings
          ⟨true, ["log", "flash", "about"], ["flash", "about"], 1, (10, 20), (700, 800)⟩)).pos = (10, 20) ∧
    (MainFrame.SetSettings ⟨true, ["log", "flash", "about"], ["flash", "about"], 0, (0, 0), (700, 800)⟩
        (MainFrame.GetSettings
          ⟨true, ["log", "flash", "about"], ["flash", "about"], 1, (10, 20), (700, 800)⟩)).size = (700, 800) ∧
    MainFrame.NotebookPageName
        (MainFrame.SetSettings ⟨true, ["log", "flash", "about"], ["flash", "about"], 0, (0, 0), (700, 800)⟩
          (MainFrame.GetSettings
            ⟨true, ["log", "flash", "about"], ["flash", "about"], 1, (10, 20), (700, 800)⟩)) =
      MainFrame.NotebookPageName
        ⟨true, ["log", "flash", "about"], ["flash", "about"], 1, (10, 20), (700, 800)⟩ :=
  c7_settings_roundtrip
    ⟨true, ["log", "flash", "about"], ["flash", "about"], 1, (10, 20), (700, 800)⟩
    ⟨true, ["log", "flash", "about"], ["flash", "about"], 0, (0, 0), (700, 800)⟩
    rfl rfl "about" rfl (by decide)

/-- Looking up a key just assigned yields the assigned value. -/
lemma lookupKey_setKey_self (k : String) (v : MainFrame.JVal)
    (d : MainFrame.JDoc) :
    MainFrame.lookupKey k (MainFrame.setKey k v d) = some v := by
  induction d with
  | nil => simp [MainFrame.setKey, MainFrame.lookupKey]
  | cons e rest ih =>
    obtain ⟨k2, v2⟩ := e
    by_cases h : k2 = k <;>
      simp [MainFrame.setKey, MainFrame.lookupKey, h, ih]

/-- Assigning one key leaves lookups of other keys unchanged. -/
lemma lookupKey_setKey_other (k k2 : String) (v : MainFrame.JVal)
    (d : MainFrame.JDoc) (h : k2 ≠ k) :
    MainFrame.lookupKey k (MainFrame.setKey k2 v d) = MainFrame.lookupKey k d := by
  induction d with
  | nil => simp [MainFrame.setKey, MainFrame.lookupKey, h]
  | cons e rest ih =>
    obtain ⟨k3, v3⟩ := e
    by_cases h3 : k3 = k2 <;> by_cases h4 : k3 = k <;>
      simp_all [MainFrame.setKey, MainFrame.lookupKey]

/-- Folding per-key assignments over names not containing `n` preserves the
lookup of `n`. -/
lemma lookupKey_foldl_not_mem (w : String → MainFrame.JVal) (n : String)
    (ps : List String) (d : MainFrame.JDoc) (h : n ∉ ps) :
    MainFrame.lookupKey n
        (ps.foldl (fun d2 m => MainFrame.setKey m (w m) d2) d) =
      MainFrame.lookupKey n d := by
  induction ps generalizing d with
  | nil => rfl
  | cons m rest ih =>
    have hm : m ≠ n := fun he => h (he ▸ List.mem_cons_self m rest)
    have hr : n ∉ rest := fun he => h (List.mem_cons_of_mem m he)
    simpa [List.foldl_cons, ih _ hr] using
      lookupKey_setKey_other n m (w m) d hm

/-- After folding per-key assignments over all names, every listed name maps
to its assigned value. -/
lemma lookupKey_foldl_mem (w : String → MainFrame.JVal) (n : String)
    (ps : List String) (d : MainFrame.JDoc) (h : n ∈ ps) :
    MainFrame.lookupKey n
        (ps.foldl (fun d2 m => MainFrame.setKey m (w m) d2) d) =
      some (w n) := by
  induction ps generalizing d with
  | nil => exact absurd h (List.not_mem_nil n)
  | cons m rest ih =>
    by_cases hr : n ∈ rest
    · simpa [List.foldl_cons] using ih hr (d := MainFrame.setKey m (w m) d)
    · have hm : n = m := by
        rcases List.mem_cons.mp h with h1 | h1
        · exact h1
        · exact absurd h1 hr
      subst hm
      simpa [List.foldl_cons, lookupKey_foldl_not_mem w n rest _ hr] using
        lookupKey_setKey_self n (w n) d

/-- C10: when the window closed in the loaded state, the written settings
document maps every mounted panel identifier to a dict: the panel slice is
what the panel returned from `GetSettings`, with the empty mapping stored instead whenever
the panel returned no settings (`None`, as the unoverridden
`BasePanel.GetSettings` does). -/
theorem c10_close_panel_slices_are_dicts (f : MainFrame.Frame)
    (file : Option MainFrame.JDoc)
    (g : String → Option (List (String × String)))
    (h : f.loaded = true) (n : String) (hn : n ∈ f.panels) :
    ∃ doc, (MainFrame.OnClose f file g).file = some doc ∧
      MainFrame.lookupKey n doc =
        some (MainFrame.JVal.jdict (MainFrame.orEmptyDict (g n))) ∧
      (g n = none → MainFrame.lookupKey n doc = some (MainFrame.JVal.jdict [])) := by
  refine ⟨(f.panels.foldl
      (fun d m => MainFrame.setKey m (MainFrame.JVal.jdict (MainFrame.orEmptyDict (g m))) d)
      (MainFrame.setKey "main" (MainFrame.JVal.jmain (MainFrame.GetSettings f))
        (file.getD []))), ?_, ?_, ?_⟩
  · simp [MainFrame.OnClose, h]
  · exact lookupKey_foldl_mem
      (fun m => MainFrame.JVal.jdict (MainFrame.orEmptyDict (g m))) n f.panels _ hn
  · intro hg
    have := lookupKey_foldl_mem
      (fun m => MainFrame.JVal.jdict (MainFrame.orEmptyDict (g m))) n f.panels
      (MainFrame.setKey "main" (MainFrame.JVal.jmain (MainFrame.GetSettings f))
        (file.getD [])) hn
    rw [this]
    simp [hg, MainFrame.orEmptyDict]

/-- Witness for C10: closing a loaded window with panels `log` and `flash`,
where `flash` returns no settings, stores a dict for both and `{}` for
`flash`. -/
theorem c10_close_panel_slices_are_dicts_witness :
    ∃ doc,
      (MainFrame.OnClose ⟨true, ["log", "flash"], ["flash"], 0, (0, 0), (700, 800)⟩
          none (fun _ => none)).file = some doc ∧
      MainFrame.lookupKey "flash" doc =
        some (MainFrame.JVal.jdict (MainFrame.orEmptyDict none)) ∧
      ((none : Option (List (String × String))) = none →
        MainFrame.lookupKey "flash" doc = some (MainFrame.JVal.jdict [])) :=
  c10_close_panel_slices_are_dicts
    ⟨true, ["log", "flash"], ["flash"], 0, (0, 0), (700, 800)⟩
    none (fun _ => none) rfl "flash" (by decide)

/-- Every event in the settings-distribution phase of the show trace is the
main-slice application, a per-panel settings application, or a per-panel init
delivery — never an `OnShow` call. -/
lemma mem_show_phase1 (panels : List String) (e : MainFrame.ShowEv)
    (h : e ∈ MainFrame.ShowEv.setMainSettings ::
      panels.flatMap fun n => [MainFrame.ShowEv.setSettings n, MainFrame.ShowEv.setInitParams n]) :
    ∀ q, e ≠ MainFrame.ShowEv.onShow q := by
  intro q
  rcases List.mem_cons.mp h with h1 | h1
  · subst h1; intro he; exact nomatch he
  · obtain ⟨a, -, ha⟩ := List.mem_flatMap.mp h1
    rcases List.mem_cons.mp ha with h2 | h2
    · subst h2; intro he; exact nomatch he
    · rcases List.mem_singleton.mp h2 with h3
      subst h3; intro he; exact nomatch he

/-- Every event in the refresh phase of the show trace is the loaded-info log
or an `OnShow` call — never a settings application or an init delivery. -/
lemma mem_show_phase2 (panels : List String) (hs : Bool) (e : MainFrame.ShowEv)
    (h : e ∈ (if hs then [MainFrame.ShowEv.loadedInfo] else []) ++
      panels.map MainFrame.ShowEv.onShow) :
    ∀ p, e ≠ MainFrame.ShowEv.setSettings p ∧ e ≠ MainFrame.ShowEv.setInitParams p := by
  intro p
  rcases List.mem_append.mp h with h1 | h1
  · cases hs with
    | true =>
      rcases List.mem_singleton.mp h1 with h2
      subst h2
      exact ⟨(fun he => nomatch he), (fun he => nomatch he)⟩
    | false => exact absurd h1 (List.not_mem_nil e)
  · obtain ⟨a, -, ha⟩ := List.mem_map.mp h1
    subst ha
    exact ⟨(fun he => nomatch he), (fun he => nomatch he)⟩

/-- C3: in the `MainFrame.OnShow` trace, every per-panel `SetSettings` and
`SetInitParams` event precedes every `OnShow` event: all panels get
their settings slice and init params before `OnShow` fires on any panel. -/
theorem c3_all_settings_before_any_onshow (panels : List String) (hs : Bool)
    (p q : String) (i j : Nat)
    (hi : (MainFrame.OnShow panels hs)[i]? = some (MainFrame.ShowEv.setSettings p) ∨
      (MainFrame.OnShow panels hs)[i]? = some (MainFrame.ShowEv.setInitParams p))
    (hj : (MainFrame.OnShow panels hs)[j]? = some (MainFrame.ShowEv.onShow q)) :
    i < j := by
  set A : List MainFrame.ShowEv := MainFrame.ShowEv.setMainSettings ::
    panels.flatMap fun n => [MainFrame.ShowEv.setSettings n, MainFrame.ShowEv.setInitParams n] with hA
  set B : List MainFrame.ShowEv := (if hs then [MainFrame.ShowEv.loadedInfo] else []) ++
    panels.map MainFrame.ShowEv.onShow with hB
  have htr : MainFrame.OnShow panels hs = A ++ B := rfl
  rw [htr] at hi hj
  have hilt : i < A.length := by
    by_contra hc
    push_neg at hc
    rw [List.getElem?_append_right hc] at hi
    rcases hi with h1 | h1
    · exact (mem_show_phase2 panels hs _ (List.getElem?_mem h1) p).1 rfl
    · exact (mem_show_phase2 panels hs _ (List.getElem?_mem h1) p).2 rfl
  have hjge : A.length ≤ j := by
    by_contra hc
    push_neg at hc
    rw [List.getElem?_append_left hc] at hj
    exact mem_show_phase1 panels _ (List.getElem?_mem hj) q rfl
  exact Nat.lt_of_lt_of_le hilt hjge

/-- Witness for C3 on the two-panel registry `log`, `flash`: the settings
application to `flash` (index 3) precedes the `OnShow` of `log` (index 6). -/
theorem c3_all_settings_before_any_onshow_witness : (3 : Nat) < 6 :=
  c3_all_settings_before_any_onshow ["log", "flash"] true "flash" "log" 3 6
    (Or.inl (by decide)) (by decide)

/-- The exception escaping the construction loop is the name of the first
entry whose constructor raises, independent of the incoming state. -/
lemma buildLoop_snd (ws : List MainFrame.BuildEntry) :
    ∀ st, (MainFrame.buildLoop ws st).2 = MainFrame.failName ws := by
  induction ws with
  | nil => intro st; rfl
  | cons e rest ih =>
    intro st
    cases hP : e.isPanel <;> cases hF : e.fails <;>
      simp [MainFrame.buildLoop, MainFrame.failName, hP, hF, ih]

/-- The construction loop never logs. -/
lemma buildLoop_logs (ws : List MainFrame.BuildEntry) :
    ∀ st, (MainFrame.buildLoop ws st).1.logs = st.logs := by
  induction ws with
  | nil => intro st; rfl
  | cons e rest ih =>
    intro st
    cases hP : e.isPanel <;> cases hF : e.fails <;>
      simp [MainFrame.buildLoop, hP, hF, ih] <;> split <;> rfl

/-- The construction loop never closes the window. -/
lemma buildLoop_closed (ws : List MainFrame.BuildEntry) :
    ∀ st, (MainFrame.buildLoop ws st).1.closed = st.closed := by
  induction ws with
  | nil => intro st; rfl
  | cons e rest ih =>
    intro st
    cases hP : e.isPanel <;> cases hF : e.fails <;>
      simp [MainFrame.buildLoop, hP, hF, ih] <;> split <;> rfl

/-- A loop that completes without an exception sets the `loaded` flag. -/
lemma buildLoop_none_loaded (ws : List MainFrame.BuildEntry) :
    ∀ st, (MainFrame.buildLoop ws st).2 = none →
      (MainFrame.buildLoop ws st).1.loaded = true := by
  induction ws with
  | nil => intro st _; rfl
  | cons e rest ih =>
    intro st h
    cases hP : e.isPanel <;> cases hF : e.fails <;>
      simp_all [MainFrame.buildLoop, hP, hF]

/-- When the loop raises, the `loaded` flag holds exactly when it held on
entry or a `plugin.`-prefixed entry was reached at or before the failure. -/
lemma buildLoop_some_loaded (ws : List MainFrame.BuildEntry) :
    ∀ st n, (MainFrame.buildLoop ws st).2 = some n →
      (MainFrame.buildLoop ws st).1.loaded =
        (st.loaded || MainFrame.pluginBeforeFail ws) := by
  induction ws with
  | nil => intro st n h; exact nomatch h
  | cons e rest ih =>
    intro st n h
    cases hP : e.isPanel <;> cases hF : e.fails
    · rw [MainFrame.buildLoop] at h ⊢
      simp only [hP, Bool.false_eq_true, if_false] at h ⊢
      rw [ih _ n h]
      simp [MainFrame.pluginBeforeFail, hP, Bool.or_assoc]
      split <;> simp_all
    · rw [MainFrame.buildLoop] at h ⊢
      simp only [hP, Bool.false_eq_true, if_false] at h ⊢
      rw [ih _ n h]
      simp [MainFrame.pluginBeforeFail, hP, Bool.or_assoc]
      split <;> simp_all
    · rw [MainFrame.buildLoop] at h ⊢
      simp only [hP, if_true] at h ⊢
      simp only [hF, Bool.false_eq_true, if_false] at h ⊢
      rw [ih _ n h]
      simp [MainFrame.pluginBeforeFail, hP, hF, Bool.or_assoc]
      split <;> simp_all
    · rw [MainFrame.buildLoop] at h ⊢
      simp only [hP, if_true] at h ⊢
      simp only [hF, if_true] at h ⊢
      simp [MainFrame.pluginBeforeFail, hP, hF]
      split <;> simp_all

/-- Without a failing entry there is no failure before a plugin entry. -/
lemma failName_none_fbp (ws : List MainFrame.BuildEntry)
    (h : MainFrame.failName ws = none) :
    MainFrame.failsBeforePlugin ws = false := by
  induction ws with
  | nil => rfl
  | cons e rest ih =>
    rw [MainFrame.failName] at h
    rw [MainFrame.failsBeforePlugin]
    by_cases hb : (e.isPanel && e.fails) = true
    · rw [if_pos hb] at h
      exact nomatch h
    · rw [if_neg hb] at h
      rw [if_neg hb]
      split
      · rfl
      · exact ih h

/-- With a failing entry, failure-before-plugin is the negation of
plugin-reached-before-failure. -/
lemma failName_some_fbp (ws : List MainFrame.BuildEntry) (n : String)
    (h : MainFrame.failName ws = some n) :
    MainFrame.failsBeforePlugin ws = !MainFrame.pluginBeforeFail ws := by
  induction ws with
  | nil => exact nomatch h
  | cons e rest ih =>
    rw [MainFrame.failName] at h
    rw [MainFrame.failsBeforePlugin, MainFrame.pluginBeforeFail]
    by_cases hb : (e.isPanel && e.fails) = true
    · rw [if_pos hb]
      cases hsw : e.name.startsWith "plugin." <;> simp [hsw, hb]
    · rw [if_neg hb] at h
      rw [if_neg hb]
      cases hsw : e.name.startsWith "plugin." <;> simp [hsw, hb, ih h]

/-- C1 (amended): during `MainFrame` construction, an exception while building
a panel is logged with the name of the panel being built (the dummy name `UI`
for the menu bar), and the window is closed exactly when the `loaded` flag is
still unset at the exception — that is, when the exception occurred before the
loop reached any `plugin.`-prefixed entry and before the loop completed. The
log panel (and any built-in panel built before the failing one) may already
have loaded and the window still closes. -/
theorem c1_build_failure_close_characterization (mb : Bool)
    (ws : List MainFrame.BuildEntry) :
    (MainFrame.buildPanels mb ws).closed =
      (mb || MainFrame.failsBeforePlugin ws) ∧
    (MainFrame.buildPanels mb ws).logs =
      (if mb then ["UI"] else
        match MainFrame.failName ws with
        | some n => [n]
        | none => []) := by
  cases mb with
  | true =>
    constructor
    · rfl
    · rfl
  | false =>
    rw [MainFrame.buildPanels]
    simp only [Bool.false_eq_true, if_false, Bool.false_or]
    rcases hbl : MainFrame.buildLoop ws MainFrame.initState with ⟨st, exc⟩
    have hsnd : exc = MainFrame.failName ws := by
      have := buildLoop_snd ws MainFrame.initState
      rw [hbl] at this
      exact this
    cases exc with
    | none =>
      have hcl : st.closed = false := by
        have := buildLoop_closed ws MainFrame.initState
        rw [hbl] at this
        exact this
      have hlg : st.logs = [] := by
        have := buildLoop_logs ws MainFrame.initState
        rw [hbl] at this
        exact this
      rw [← hsnd, failName_none_fbp ws hsnd.symm]
      exact ⟨hcl, by rw [hlg]⟩
    | some n =>
      have hld : st.loaded = MainFrame.pluginBeforeFail ws := by
        have := buildLoop_some_loaded ws MainFrame.initState n
        rw [hbl] at this
        simpa [MainFrame.initState] using this rfl
      have hcl : st.closed = false := by
        have := buildLoop_closed ws MainFrame.initState
        rw [hbl] at this
        exact this
      have hlg : st.logs = [] := by
        have := buildLoop_logs ws MainFrame.initState
        rw [hbl] at this
        exact this
      rw [← hsnd]
      rw [failName_some_fbp ws n hsnd.symm]
      unfold MainFrame.handleBuildExc
      constructor
      · cases hpb : MainFrame.pluginBeforeFail ws <;>
          simp [hld, hpb, hcl]
      · cases hpb : MainFrame.pluginBeforeFail ws <;>
          simp [hld, hpb, hlg]

/-- C1 (counterexample): with the built-in panel list where `flash` builds and
`about` raises, the window is closed even though panels (`log` and `flash`)
had successfully loaded — refuting that the window is closed only when zero
panels have loaded. -/
theorem c1_close_despite_loaded_panels_counterexample :
    (MainFrame.buildPanels false
        [⟨"flash", true, false⟩, ⟨"about", true, true⟩]).closed = true ∧
    (MainFrame.buildPanels false
        [⟨"flash", true, false⟩, ⟨"about", true, true⟩]).panels =
      ["log", "flash"] :=
  ⟨rfl, rfl⟩
